import Mathlib

/-
Verification of django-moreviews (moreviews/editviews.py) against its
natural-language specification.

The file gives a shallow embedding of the glue logic of the repository:
the bound form factory, the bound formset factory, the bound create view
methods, the multiple-forms processing mixin and the multi-bound-object
forms mixin. The host framework (Django) is modelled abstractly: a model
class is a record of metadata and declared fields, a form class is a
record of Meta options plus a save behaviour, querysets are symbolic
terms naming the ORM calls the source makes, and side effects (saves,
producer invocations) are recorded in an explicit event trace.
-/

namespace Moreviews

/-- Metadata record of a Django model class (the parts read by the
source: app_label and object_name on the _meta options). -/
structure MetaOptions where
  app_label : String
  object_name : String
deriving DecidableEq, Repr

/-- One declared field of a model, as seen by the auto-detection loop in
MultiBoundObjectFormsMixin.get_forms: its name and whether it is an
instance of models.ForeignKey. -/
structure FieldDesc where
  name : String
  isForeignKey : Bool
deriving DecidableEq, Repr

/-- A Django model class: its _meta options and the list of declared
fields in declaration order (model._meta.fields). -/
structure Model where
  meta : MetaOptions
  fields : List FieldDesc
deriving DecidableEq, Repr

/-- Observable side effects of the code, recorded as a trace. -/
inductive Event where
  /-- The primary form save with commit=False in
  ProcessMultipleFormsMixin.post (line 279). -/
  | primarySaveDeferred
  /-- self.new_object.save() in ProcessMultipleFormsMixin.post (line 280). -/
  | primaryPersist
  /-- f.save() for the secondary form or formset stored under the given
  key (line 281). -/
  | secondarySave (key : String)
  /-- form.save_m2m() in ProcessMultipleFormsMixin.post (line 284). -/
  | saveM2M
  /-- The super().save(commit=False) call inside the generated form save
  of bound_object_form (line 54). -/
  | baseSaveNoCommit
  /-- Invocation of a callable initial value, initial() (line 56). -/
  | producerCall
  /-- obj.save() inside the generated form save when commit is true
  (line 60). -/
  | instanceSave
deriving DecidableEq, Repr

/-- The bound value passed as initial to the factories: either a
concrete value, or a zero-argument callable producing one (resolved at
save time). -/
inductive BoundValue (α : Type) where
  | value : α → BoundValue α
  | producer : (Unit → α) → BoundValue α

/-- Resolution of the bound value inside the generated save (lines
55-58): if callable(initial) the result of calling it is used, and the
call is recorded in the trace; otherwise the value itself is used. -/
def resolveBound {α : Type} : BoundValue α → α × List Event
  | .value v => (v, [])
  | .producer p => (p (), [Event.producerCall])

/-- A model instance is a map from attribute names to values; setattr
updates one attribute. -/
def setattrFn {α : Type} (obj : String → α) (field : String) (v : α) : String → α :=
  fun f => if f = field then v else obj f

/-- A base model form class as the factory sees it: its Meta.model and
its optional Meta.exclude list (absent models a Meta without the
exclude attribute, so that getattr falls back to its default). -/
structure BaseFormClass where
  metaModel : Model
  metaExclude : Option (List String)
deriving DecidableEq, Repr

/-- The default form built when the form argument is None (lines 41-44):
a ModelForm whose Meta has model = _model and no exclude attribute. -/
def defaultModelForm (m : Model) : BaseFormClass :=
  { metaModel := m, metaExclude := none }

/-- Lines 46-50 of bound_object_form: excludes starts as
getattr(form.Meta, 'exclude', (field,)); if field is not in it, field
is appended. -/
def computeExcludes (baseExclude : Option (List String)) (field : String) : List String :=
  let excludes := baseExclude.getD [field]
  if field ∈ excludes then excludes else excludes ++ [field]

/-- The save method of the generated _form class (lines 53-61). The
argument superSaveResult is the unsaved instance returned by
super(_form, self).save(commit=False), which carries whatever data was
submitted for the form, including any value submitted for the bound
field. The result is the returned instance together with the trace of
effects: the deferred base save, the producer call when initial is
callable, and the obj.save() persist when commit is true. -/
def boundFormSave {α : Type} (field : String) (initial : BoundValue α)
    (superSaveResult : String → α) (commit : Bool) : (String → α) × List Event :=
  let obj := superSaveResult
  let resolved := resolveBound initial
  let obj := setattrFn obj field resolved.1
  let evs := Event.baseSaveNoCommit :: resolved.2
  if commit then (obj, evs ++ [Event.instanceSave]) else (obj, evs)

/-- The form type produced by bound_object_form: its Meta (model taken
from the base form Meta, line 64, and the computed exclude list, line
65) and its save behaviour. -/
structure BoundFormType (α : Type) where
  metaModel : Model
  metaExclude : List String
  saveFn : (String → α) → Bool → ((String → α) × List Event)

/-- bound_object_form (lines 30-67): produces the _form type. The
returned trace is the trace of producing the type itself: the source
only defines classes and manipulates the exclude list here, and the
initial argument is referenced solely inside the body of save, so type
production performs no producer call and no save. -/
def bound_object_form {α : Type} (_model : Model) (field : String)
    (initial : BoundValue α) (form : Option BaseFormClass) :
    BoundFormType α × List Event :=
  let form := form.getD (defaultModelForm _model)
  ({ metaModel := form.metaModel,
     metaExclude := computeExcludes form.metaExclude field,
     saveFn := boundFormSave field initial }, [])

/-- A constructed form instance: the generated type plus the prefix it
was constructed with. -/
structure BoundFormInstance (α : Type) where
  formType : BoundFormType α
  pfx : String

/-- Construction of a form from the generated type (for example
form_class(prefix='core-object', **kwargs) in BoundCreateView.get_form,
lines 172-176). The generated class overrides only save; construction
runs the base ModelForm initializer, which never references the
captured initial value, so the construction trace holds no producer
call and no save. -/
def constructForm {α : Type} (ft : BoundFormType α) (pfx : String) :
    BoundFormInstance α × List Event :=
  ({ formType := ft, pfx := pfx }, [])

/-- Lines 89-91 of bound_object_formset: when the caller passes an
exclude list in factory_kwargs, field is appended to that list in place
unless it is already present. This function is the value-level content
of that in-place update. -/
def formsetExcludeUpdate (field : String) (exclude : List String) : List String :=
  if field ∈ exclude then exclude else exclude ++ [field]

/-- Iterated application of formsetExcludeUpdate, modelling several
calls of bound_object_formset that pass the same caller-supplied
exclude list. -/
def formsetExcludeIter (field : String) : Nat → List String → List String
  | 0, l => l
  | n + 1, l => formsetExcludeIter field n (formsetExcludeUpdate field l)

/-- Python str.lower on the ASCII identifiers the source lower-cases
(model object names). Defined structurally over the character list so
that concrete names evaluate. -/
def lowerName (s : String) : String := String.mk (s.data.map Char.toLower)

/-- Django's ImproperlyConfigured exception, the only exception the
source raises or catches. -/
inductive ImproperlyConfigured where
  | mk (msg : String)
deriving DecidableEq, Repr

/-- The response produced by a view method: a redirect to a URL
(HttpResponseRedirect) or a re-render of the forms
(render_to_response(get_context_data())). -/
inductive Response where
  | redirect (url : String)
  | renderForms
deriving DecidableEq, Repr

/-- The primary form as ProcessMultipleFormsMixin.post sees it: whether
is_valid() holds for the submitted data, and the unsaved instance that
form.save(commit=False) returns. -/
structure PrimaryForm (α : Type) where
  valid : Bool
  deferredSaveResult : α
deriving DecidableEq, Repr

/-- A secondary form or formset as post sees it: whether is_valid()
holds. Its save is recorded in the trace under its key. -/
structure SecondaryForm where
  valid : Bool
deriving DecidableEq, Repr

/-- The outcome of ProcessMultipleFormsMixin.post: the HTTP response,
the trace of save effects in execution order, and the value of the
self.new_object attribute afterwards (none when the attribute was never
assigned). -/
structure PostOutcome (α : Type) where
  response : Response
  events : List Event
  newObject : Option α
deriving DecidableEq, Repr

/-- ProcessMultipleFormsMixin.post (lines 259-287). The secondary forms
dict is modelled as a list of key-form pairs in dict insertion order
(forms.values() iterates in that order). When the primary form and all
secondary forms are valid: form.save(commit=False) is assigned to
self.new_object, self.new_object.save() persists it, each secondary
form is saved in order, form.save_m2m() runs, and the response is a
redirect to the success URL. Otherwise the context is rebuilt and the
forms re-rendered, with no save performed and new_object unassigned. -/
def post {α : Type} (form : PrimaryForm α) (forms : List (String × SecondaryForm))
    (successUrl : String) : PostOutcome α :=
  if form.valid && forms.all (fun kf => kf.2.valid) then
    { response := Response.redirect successUrl,
      events := Event.primarySaveDeferred :: Event.primaryPersist ::
        ((forms.map fun kf => Event.secondarySave kf.1) ++ [Event.saveM2M]),
      newObject := some form.deferredSaveResult }
  else
    { response := Response.renderForms, events := [], newObject := none }

/-- The per-request state of BoundCreateView that get_form_kwargs
touches: the resolved-object reference self.object. -/
structure BoundCreateViewState (α : Type) where
  object : Option α
deriving DecidableEq, Repr

/-- BoundCreateView.get_form_kwargs (lines 178-187): stash self.object,
set it to None, let the superclass compute the kwargs (the superclass
computation is modelled as a function of the object attribute it
reads), restore self.object, return the kwargs. The result is the
kwargs value together with the view state after the call. -/
def get_form_kwargs {α κ : Type} (superKwargs : Option α → κ)
    (s : BoundCreateViewState α) : κ × BoundCreateViewState α :=
  let stashed := s.object
  let s1 : BoundCreateViewState α := { s with object := none }
  let kwargs := superKwargs s1.object
  let s2 : BoundCreateViewState α := { s1 with object := stashed }
  (kwargs, s2)

/-- A Python object reference as the guard on line 199 tests it: the
option is none when the attribute is None (falsy), and the inner meta
is none when the object has no _meta attribute. -/
structure DjangoRef where
  meta : Option MetaOptions
deriving DecidableEq, Repr

/-- BoundCreateView.get_template_names (lines 189-210). The superclass
contribution is an Except value: an error is the ImproperlyConfigured
raised when no template_name is specified, caught and replaced by the
empty list. When self.object and self.model are truthy and both have
_meta, four names are inserted at the front, in source order (lines
205-208), from the parent and child app labels and lower-cased object
names. -/
def get_template_names (superNames : Except ImproperlyConfigured (List String))
    (object : Option DjangoRef) (model : Option DjangoRef)
    (template_name_suffix : String) : List String :=
  let names := match superNames with
    | .ok ns => ns
    | .error _ => []
  match object, model with
  | some o, some m =>
    match o.meta, m.meta with
    | some pm, some cm =>
      let parent_app := pm.app_label
      let parent_object_name := lowerName pm.object_name
      let child_app := cm.app_label
      let child_object_name := lowerName cm.object_name
      let n205 := parent_app ++ "/" ++ child_object_name ++ template_name_suffix ++ ".html"
      let n206 := child_app ++ "/" ++ child_object_name ++ template_name_suffix ++ ".html"
      let n207 := child_app ++ "/" ++ parent_object_name ++ "_" ++ child_object_name
        ++ template_name_suffix ++ ".html"
      let n208 := parent_app ++ "/" ++ parent_object_name ++ "_" ++ child_object_name
        ++ template_name_suffix ++ ".html"
      n208 :: n207 :: n206 :: n205 :: names
    | _, _ => names
  | _, _ => names

/-- A queryset as a symbolic term naming the ORM call the source makes:
model.objects.none(), model.objects.filter(**{field: object}), or a
caller-supplied queryset. -/
inductive QuerySet (α : Type) where
  | emptyQS (m : Model)
  | filteredQS (m : Model) (field : String) (value : α)
  | customQS (tag : Nat)
deriving DecidableEq, Repr

/-- One entry of forms_models: either a bare model class, or a
configuration dict with the model and optional field_name and queryset
(the remaining dict entries are passed through as factory kwargs and
play no role in the claims). -/
inductive FormsModelConf (α : Type) where
  | bare (model : Model)
  | conf (model : Model) (field_name : Option String) (queryset : Option (QuerySet α))

/-- The auto-detection loop of lines 366-368: iterate over
model._meta.fields and assign foreign_key_field = field.name for every
ForeignKey encountered, with no break, so a later ForeignKey overwrites
an earlier one. -/
def detectForeignKey (fields : List FieldDesc) : Option String :=
  fields.foldl (fun acc f => if f.isForeignKey then some f.name else acc) none

/-- The arguments of the bound_object_formset call built for one entry
(lines 383-392): the model, the resolved queryset, the resolved
foreign-key field, and the prefix (the lower-cased model object name,
also used as the dict key). The initial argument is always the
zero-argument producer returning self.new_object. -/
structure FormsetSpec (α : Type) where
  model : Model
  queryset : QuerySet α
  field : String
  pfx : String
deriving DecidableEq, Repr

/-- Lines 363-372: the foreign-key field name is the explicit
field_name when given, else the result of the detection loop. -/
def resolveFieldName (explicitName : Option String) (m : Model) : Option String :=
  match explicitName with
  | some f => some f
  | none => detectForeignKey m.fields

/-- Processing of one forms_models entry inside
MultiBoundObjectFormsMixin.get_forms (lines 347-392). The objectAttr
argument models the primary-object attribute of the view: none when
hasattr(self, 'object') is false, some none when self.object is None,
some (some o) otherwise. Field-name resolution: explicit value, else
the detection loop, else ImproperlyConfigured. Queryset resolution:
explicit value, else model.objects.none() when there is no primary
object yet, else model.objects.filter(**{field: self.object}). -/
def processEntry {α : Type} (objectAttr : Option (Option α))
    (entry : FormsModelConf α) :
    Except ImproperlyConfigured (String × FormsetSpec α) :=
  let parts := match entry with
    | .bare m => (m, (none : Option String), (none : Option (QuerySet α)))
    | .conf m f q => (m, f, q)
  let model := parts.1
  match resolveFieldName parts.2.1 model with
  | none => .error (ImproperlyConfigured.mk
      "MultiBoundObjectFormsMixin.forms_models must contain either models with a ForeignKey or a dictionary of configuration.")
  | some fk =>
    let qs := match parts.2.2 with
      | some q => q
      | none => match objectAttr with
        | none => QuerySet.emptyQS model
        | some none => QuerySet.emptyQS model
        | some (some o) => QuerySet.filteredQS model fk o
    .ok (lowerName model.meta.object_name,
      { model := model, queryset := qs, field := fk,
        pfx := lowerName model.meta.object_name })

/-- MultiBoundObjectFormsMixin.get_forms: process every entry of
forms_models, stopping at the first configuration error. The result
keeps the list order; the Python dict is keyed by the same strings. -/
def get_forms {α : Type} (objectAttr : Option (Option α))
    (forms_models : List (FormsModelConf α)) :
    Except ImproperlyConfigured (List (String × FormsetSpec α)) :=
  forms_models.mapM (processEntry objectAttr)

/-- Convenience accessor for the queryset of a processed entry. -/
def entryQueryset {α : Type} :
    Except ImproperlyConfigured (String × FormsetSpec α) → Option (QuerySet α)
  | .ok kv => some kv.2.queryset
  | .error _ => none

/-- Convenience accessor for the resolved field of a processed entry. -/
def entryField {α : Type} :
    Except ImproperlyConfigured (String × FormsetSpec α) → Option String
  | .ok kv => some kv.2.field
  | .error _ => none

/-- A sample child model with two ForeignKey fields, declared in the
order alpha then beta, used to exercise the auto-detection loop. -/
def twoFKChild : Model :=
  { meta := { app_label := "app2", object_name := "Child" },
    fields := [{ name := "id", isForeignKey := false },
               { name := "alpha", isForeignKey := true },
               { name := "beta", isForeignKey := true }] }

/-- A sample model with no ForeignKey field. -/
def noFKChild : Model :=
  { meta := { app_label := "app2", object_name := "Plain" },
    fields := [{ name := "id", isForeignKey := false },
               { name := "name", isForeignKey := false }] }

theorem mem_computeExcludes (be : Option (List String)) (field : String) :
    field ∈ computeExcludes be field := by
  simp only [computeExcludes]
  split
  · assumption
  · exact List.mem_append.mpr (Or.inr (List.mem_singleton.mpr rfl))

theorem formsetExcludeIter_of_mem (field : String) (l : List String)
    (h : field ∈ l) : ∀ n, formsetExcludeIter field n l = l := by
  intro n
  induction n with
  | zero => rfl
  | succ k ih =>
    show formsetExcludeIter field k (formsetExcludeUpdate field l) = l
    rw [formsetExcludeUpdate, if_pos h]
    exact ih

/-- Claim C1: for every child model, parent-field name and bound value,
the form type produced by bound_object_form has the parent field in its
Meta.exclude, and the instance returned by its save has the
parent-field attribute equal to the resolved bound value, whatever
unsaved instance the base save produced from the submitted data and
whether or not commit was requested. -/
theorem c1_bound_form_excludes_and_forces_field {α : Type} (m : Model)
    (field : String) (initial : BoundValue α) (baseForm : Option BaseFormClass)
    (superSaveResult : String → α) (commit : Bool) :
    field ∈ (bound_object_form m field initial baseForm).1.metaExclude ∧
    ((bound_object_form m field initial baseForm).1.saveFn superSaveResult commit).1 field
      = (resolveBound initial).1 := by
  constructor
  · exact mem_computeExcludes _ field
  · cases commit <;> simp [bound_object_form, boundFormSave, setattrFn]

/-- Claim C4: with a zero-argument producer as bound value, producing
the form type calls the producer zero times, constructing the form
calls it zero times, and each save calls it exactly once and assigns
its result to the parent-field attribute. -/
theorem c4_producer_called_at_save_only {α : Type} (m : Model) (field : String)
    (p : Unit → α) (baseForm : Option BaseFormClass) (pfx : String)
    (superSaveResult : String → α) (commit : Bool) :
    Event.producerCall ∉ (bound_object_form m field (BoundValue.producer p) baseForm).2 ∧
    Event.producerCall ∉
      (constructForm (bound_object_form m field (BoundValue.producer p) baseForm).1 pfx).2 ∧
    List.count Event.producerCall
      (((bound_object_form m field (BoundValue.producer p) baseForm).1.saveFn
        superSaveResult commit).2) = 1 ∧
    ((bound_object_form m field (BoundValue.producer p) baseForm).1.saveFn
      superSaveResult commit).1 field = p () := by
  refine ⟨by simp [bound_object_form], by simp [bound_object_form, constructForm], ?_, ?_⟩
  · cases commit <;>
      simp [bound_object_form, boundFormSave, resolveBound, List.count_cons, List.count_append]
  · cases commit <;> simp [bound_object_form, boundFormSave, resolveBound, setattrFn]

/-- Claim C10: the exclude-list update of bound_object_formset appends
the parent field when absent and leaves the list unchanged when
present, so starting from a caller list without the field, any positive
number of calls sharing that list leaves the field in it exactly
once. -/
theorem c10_formset_exclude_update (field : String) (l : List String) (n : Nat) :
    (field ∉ l → formsetExcludeUpdate field l = l ++ [field]) ∧
    (field ∈ l → formsetExcludeUpdate field l = l) ∧
    (field ∉ l → 1 ≤ n → List.count field (formsetExcludeIter field n l) = 1) := by
  refine ⟨fun h => by rw [formsetExcludeUpdate, if_neg h],
          fun h => by rw [formsetExcludeUpdate, if_pos h],
          fun h hn => ?_⟩
  obtain ⟨k, rfl⟩ : ∃ k, n = k + 1 := ⟨n - 1, by omega⟩
  show List.count field (formsetExcludeIter field k (formsetExcludeUpdate field l)) = 1
  rw [formsetExcludeUpdate, if_neg h,
      formsetExcludeIter_of_mem field (l ++ [field])
        (List.mem_append.mpr (Or.inr (List.mem_singleton.mpr rfl))),
      List.count_append, List.count_eq_zero_of_not_mem h]
  simp

/-- Witness for claim C10 at a concrete list and field. -/
theorem c10_formset_exclude_update_witness :
    formsetExcludeUpdate "b" ["a"] = ["a"] ++ ["b"] ∧
    formsetExcludeUpdate "b" ["a", "b"] = ["a", "b"] ∧
    List.count "b" (formsetExcludeIter "b" 3 ["a"]) = 1 :=
  ⟨(c10_formset_exclude_update "b" ["a"] 3).1 (by decide),
   (c10_formset_exclude_update "b" ["a", "b"] 3).2.1 (by decide),
   (c10_formset_exclude_update "b" ["a"] 3).2.2 (by decide) (by decide)⟩

/-- Claim C2: if the primary form or any secondary form fails
validation, ProcessMultipleFormsMixin.post performs no save of any
kind, leaves new_object unassigned, and re-renders the forms. -/
theorem c2_invalid_form_saves_nothing {α : Type} (form : PrimaryForm α)
    (forms : List (String × SecondaryForm)) (successUrl : String)
    (h : form.valid = false ∨ ∃ kf ∈ forms, kf.2.valid = false) :
    post form forms successUrl =
      { response := Response.renderForms, events := [], newObject := none } := by
  have hc : ¬((form.valid && forms.all fun kf => kf.2.valid) = true) := by
    simp only [Bool.and_eq_true, List.all_eq_true]
    rintro ⟨hv, hall⟩
    rcases h with h | ⟨kf, hmem, hkf⟩
    · rw [h] at hv; exact Bool.false_ne_true hv
    · have := hall kf hmem
      rw [hkf] at this; exact Bool.false_ne_true this
  rw [post, if_neg hc]

/-- Witness for claim C2: a valid primary form with one invalid
secondary form saves nothing and re-renders. -/
theorem c2_invalid_form_saves_nothing_witness :
    post { valid := true, deferredSaveResult := (0 : Nat) }
      [("child", { valid := false })] "done" =
      { response := Response.renderForms, events := [], newObject := none } :=
  c2_invalid_form_saves_nothing
    { valid := true, deferredSaveResult := (0 : Nat) }
    [("child", { valid := false })] "done" (by decide)

/-- Claim C3: when the primary form and every secondary form are valid,
post runs, in order, the deferred primary save, the persist of the
primary object, every secondary save in mapping order, and the
many-to-many finalization, then redirects to the success URL. -/
theorem c3_valid_post_save_order {α : Type} (form : PrimaryForm α)
    (forms : List (String × SecondaryForm)) (successUrl : String)
    (h : form.valid = true ∧ ∀ kf ∈ forms, kf.2.valid = true) :
    post form forms successUrl =
      { response := Response.redirect successUrl,
        events := Event.primarySaveDeferred :: Event.primaryPersist ::
          ((forms.map fun kf => Event.secondarySave kf.1) ++ [Event.saveM2M]),
        newObject := some form.deferredSaveResult } := by
  have hc : (form.valid && forms.all fun kf => kf.2.valid) = true := by
    simp only [Bool.and_eq_true, List.all_eq_true]
    exact ⟨h.1, h.2⟩
  rw [post, if_pos hc]

/-- Witness for claim C3 with two valid secondary forms. -/
theorem c3_valid_post_save_order_witness :
    post { valid := true, deferredSaveResult := (7 : Nat) }
      [("a", { valid := true }), ("b", { valid := true })] "done" =
      { response := Response.redirect "done",
        events := [Event.primarySaveDeferred, Event.primaryPersist,
          Event.secondarySave "a", Event.secondarySave "b", Event.saveM2M],
        newObject := some 7 } :=
  c3_valid_post_save_order { valid := true, deferredSaveResult := (7 : Nat) }
    [("a", { valid := true }), ("b", { valid := true })] "done" (by decide)

/-- Claim C5: for a bound create view whose parent is Parent in app1,
whose child model is Child in app2, and whose suffix is _create, the
template name list starts with the four names in the stated order,
followed by the superclass contribution. -/
theorem c5_template_name_order (superContribution : List String) :
    get_template_names (Except.ok superContribution)
      (some { meta := some { app_label := "app1", object_name := "Parent" } })
      (some { meta := some { app_label := "app2", object_name := "Child" } })
      "_create" =
      "app1/parent_child_create.html" :: "app2/parent_child_create.html" ::
        "app2/child_create.html" :: "app1/child_create.html" :: superContribution := rfl

/-- Claim C9: when the superclass raises ImproperlyConfigured during
template-name resolution, get_template_names treats the contribution as
empty and still returns its own four candidate names, for any parent
and child metadata. -/
theorem c9_improperly_configured_recovered (e : ImproperlyConfigured)
    (pm cm : MetaOptions) (sfx : String) :
    get_template_names (Except.error e)
      (some { meta := some pm }) (some { meta := some cm }) sfx =
      [pm.app_label ++ "/" ++ lowerName pm.object_name ++ "_" ++ lowerName cm.object_name
         ++ sfx ++ ".html",
       cm.app_label ++ "/" ++ lowerName pm.object_name ++ "_" ++ lowerName cm.object_name
         ++ sfx ++ ".html",
       cm.app_label ++ "/" ++ lowerName cm.object_name ++ sfx ++ ".html",
       pm.app_label ++ "/" ++ lowerName cm.object_name ++ sfx ++ ".html"] := rfl

/-- Claim C8: BoundCreateView.get_form_kwargs returns the kwargs the
superclass computes while the resolved-object reference is cleared, and
the view state after the call is unchanged. -/
theorem c8_form_kwargs_clears_and_restores {α κ : Type}
    (superKwargs : Option α → κ) (s : BoundCreateViewState α) :
    (get_form_kwargs superKwargs s).1 = superKwargs none ∧
    (get_form_kwargs superKwargs s).2 = s :=
  ⟨rfl, rfl⟩

/-- Claim C6 (code behaviour at the failing input): for a bare child
model declaring ForeignKey fields alpha then beta in that order, the
auto-detection loop resolves the parent field to beta, the LAST
declared foreign key, because the loop keeps overwriting without a
break — contradicting the claim, the mixin docstring and the loop
comment, which all say the FIRST ForeignKey is used. The
ImproperlyConfigured half of the claim does hold: a model with no
ForeignKey and no explicit field_name raises the configuration
error. -/
theorem c6_autodetect_uses_last_foreign_key :
    detectForeignKey twoFKChild.fields = some "beta" ∧
    entryField (processEntry (none : Option (Option Nat)) (FormsModelConf.bare twoFKChild))
      = some "beta" ∧
    processEntry (none : Option (Option Nat)) (FormsModelConf.bare noFKChild)
      = Except.error (ImproperlyConfigured.mk
          "MultiBoundObjectFormsMixin.forms_models must contain either models with a ForeignKey or a dictionary of configuration.") :=
  ⟨rfl, rfl, rfl⟩

/-- Claim C7: for an entry without an explicit queryset and whose field
name resolves, the queryset is model.objects.none() when the view has
no object attribute or it is None, and otherwise the model rows
filtered on the resolved parent field equal to the primary object. -/
theorem c7_default_queryset_resolution {α : Type} (m : Model) (fno : Option String)
    (fk : String) (o : α) (h : resolveFieldName fno m = some fk) :
    entryQueryset (processEntry (none : Option (Option α)) (FormsModelConf.conf m fno none))
      = some (QuerySet.emptyQS m) ∧
    entryQueryset (processEntry (some (none : Option α)) (FormsModelConf.conf m fno none))
      = some (QuerySet.emptyQS m) ∧
    entryQueryset (processEntry (some (some o)) (FormsModelConf.conf m fno none))
      = some (QuerySet.filteredQS m fk o) := by
  refine ⟨?_, ?_, ?_⟩ <;> simp [processEntry, entryQueryset, h]

/-- Witness for claim C7 at a concrete model and primary object. -/
theorem c7_default_queryset_resolution_witness :
    entryQueryset (processEntry (none : Option (Option Nat))
        (FormsModelConf.conf twoFKChild none none)) = some (QuerySet.emptyQS twoFKChild) ∧
    entryQueryset (processEntry (some (none : Option Nat))
        (FormsModelConf.conf twoFKChild none none)) = some (QuerySet.emptyQS twoFKChild) ∧
    entryQueryset (processEntry (some (some (5 : Nat)))
        (FormsModelConf.conf twoFKChild none none))
      = some (QuerySet.filteredQS twoFKChild "beta" (5 : Nat)) :=
  c7_default_queryset_resolution twoFKChild none "beta" (5 : Nat) rfl

end Moreviews
